import Mathlib

/-!
Verification of the consultancy web application (`src/app.py`).

The application is a small Flask app: a `users` table and a `projects`
table, session-based login (flask-login), and five request handlers
(`login`, `register`, `client_dashboard`, `admin_dashboard`,
`create_client`, `create_project`).  This file is a shallow embedding of
that code: the database is a pair of lists, a session is the optional id
stored by flask-login, and each handler is a Lean function from the
database and session (and the submitted form) to the resulting database,
flashed messages and response.  Library functions the code calls
(werkzeug password hashing, `datetime.strptime`, the SQL ordering
performed by PostgreSQL) are modelled explicitly, with their modelling
assumptions documented at the definition.
-/

namespace ConsultApp

/-- A calendar date, the content of a SQL `Date` column
(`Project.start_date`, `src/app.py` line 56). -/
structure Date where
  year : Nat
  month : Nat
  day : Nat
deriving DecidableEq

/-- Modelled from the spec: werkzeug stores `method$salt$hash`; we keep the
salt and the derived digest as fields rather than a serialized string.
The digest function `saltedDigest` below stands in for the one-way key
derivation. -/
structure PwHash where
  salt : Nat
  digest : String
deriving DecidableEq

/-- Modelled from the spec: the salted key derivation inside werkzeug
`generate_password_hash` / `check_password_hash` (not repository code).
The model is a concrete injective-per-salt function so that verification
by re-derivation is executable; one-wayness of the real primitive is not
modelled. -/
def saltedDigest (salt : Nat) (pw : String) : String :=
  toString salt ++ "#" ++ pw

/-- Modelled from the spec: `werkzeug.security.generate_password_hash`,
called with a fresh random `salt` drawn by the library (threaded here as
an explicit argument). -/
def generate_password_hash (salt : Nat) (pw : String) : PwHash :=
  ⟨salt, saltedDigest salt pw⟩

/-- Modelled from the spec: `werkzeug.security.check_password_hash`
re-derives the digest from the stored salt and the submitted plaintext
and compares digests. -/
def check_password_hash (h : PwHash) (pw : String) : Bool :=
  saltedDigest h.salt pw == h.digest

/-- A row of the `users` table (`src/app.py` lines 26-47). -/
structure User where
  id : Nat
  email : String
  password : PwHash
  name : String
  role : String
  empresa : Option String
deriving DecidableEq

/-- A row of the `projects` table (`src/app.py` lines 50-63). -/
structure Project where
  id : Nat
  name : String
  status : String
  start_date : Option Date
  client_id : Nat
deriving DecidableEq

/-- The database state: the two tables. -/
structure DB where
  users : List User
  projects : List Project
deriving DecidableEq

/-- Autoincrement primary key for an insert into `users`. -/
def nextUserId (db : DB) : Nat :=
  (db.users.map (fun u => u.id)).foldr Nat.max 0 + 1

/-- Autoincrement primary key for an insert into `projects`. -/
def nextProjectId (db : DB) : Nat :=
  (db.projects.map (fun p => p.id)).foldr Nat.max 0 + 1

/-- A flashed message with its category, as produced by Flask `flash`. -/
structure Flash where
  message : String
  category : String
deriving DecidableEq

/-- The response a handler returns: a redirect to a named endpoint, or a
rendered template together with the data the handler passes to it. -/
inductive Response where
  | redirect (endpoint : String)
  | renderIndex
  | renderLogin
  | renderRegister
  | renderDashboard (client_name : String) (projects : List Project)
  | renderAdmin (clients : List User) (all_projects : List Project)
deriving DecidableEq

/-- What one handled request produces: the database afterwards, the
flashed messages, and the response. -/
structure HandlerResult where
  db : DB
  flashes : List Flash
  response : Response
deriving DecidableEq

/-- flask-login `load_user` (`src/app.py` lines 69-71): the session holds
a user id; `current_user` is the row with that id, if any. -/
def getCurrentUser (db : DB) (sess : Option Nat) : Option User :=
  match sess with
  | none => none
  | some uid => db.users.find? (fun u => u.id == uid)

/-- The flash and redirect produced by `@login_required` when there is no
authenticated user: flask-login flashes `login_message` (configured at
`src/app.py` line 20) and redirects to `login_view` (line 19). -/
def loginRequiredResult (db : DB) : HandlerResult :=
  ⟨db, [⟨"Por favor, inicia sesión para acceder a esta página.", "message"⟩],
    .redirect "login"⟩

/-- `client_dashboard` (`src/app.py` lines 128-139): requires login,
denies non-clients, and renders the projects whose `client_id` is the
current user id. -/
def client_dashboard (db : DB) (sess : Option Nat) : HandlerResult :=
  match getCurrentUser db sess with
  | none => loginRequiredResult db
  | some u =>
    if u.role != "client" then
      ⟨db, [⟨"Acceso no autorizado.", "error"⟩], .redirect "index"⟩
    else
      ⟨db, [], .renderDashboard u.name
        (db.projects.filter (fun p => p.client_id == u.id))⟩

/-- Key used to order dates; injective on dates with `month ≤ 12` and
`day ≤ 31`, which is all `strptime_Ymd` can produce. -/
def dateKey (d : Date) : Nat :=
  d.year * 10000 + d.month * 100 + d.day

/-- The per-row comparison realised by PostgreSQL for
`ORDER BY start_date DESC` (`src/app.py` line 152 against the
`postgresql://` store of line 12): larger dates first, and SQL NULL sorts
as if larger than every non-null value, hence FIRST under `DESC`.
`descBefore a b` says `a` may come at or before `b` in the output. -/
def descBefore (a b : Project) : Bool :=
  match a.start_date, b.start_date with
  | none, _ => true
  | some _, none => false
  | some x, some y => dateKey y ≤ dateKey x

/-- `descBefore` as a decidable relation, for the sort. -/
def projOrder (a b : Project) : Prop := descBefore a b = true

instance : DecidableRel projOrder := fun a b => by
  unfold projOrder; infer_instance

instance : IsTotal Project projOrder := by
  constructor
  intro a b
  unfold projOrder descBefore
  cases ha : a.start_date <;> cases hb : b.start_date <;> simp
  exact Nat.le_total _ _

instance : IsTrans Project projOrder := by
  constructor
  intro a b c h₁ h₂
  unfold projOrder descBefore at *
  cases ha : a.start_date <;> cases hb : b.start_date <;>
    cases hc : c.start_date <;> simp_all
  exact Nat.le_trans h₂ h₁

/-- The project list the admin query returns: all rows of `projects`,
ordered by `start_date` descending (PostgreSQL NULLS FIRST default). -/
def orderByStartDateDesc (ps : List Project) : List Project :=
  ps.insertionSort projOrder

/-- `admin_dashboard` (`src/app.py` lines 141-155): requires login,
denies non-admins, renders all client users and all projects ordered by
`start_date` descending. -/
def admin_dashboard (db : DB) (sess : Option Nat) : HandlerResult :=
  match getCurrentUser db sess with
  | none => loginRequiredResult db
  | some u =>
    if u.role != "admin" then
      ⟨db, [⟨"Acceso no autorizado.", "error"⟩], .redirect "index"⟩
    else
      ⟨db, [], .renderAdmin
        (db.users.filter (fun x => x.role == "client"))
        (orderByStartDateDesc db.projects)⟩

/-- The form fields of `POST /login`. -/
structure LoginForm where
  email : String
  password : String

/-- The form fields of `POST /register`. -/
structure RegisterForm where
  email : String
  name : String
  password : String

/-- The form fields of `POST /create_client`. -/
structure CreateClientForm where
  nombre : String
  apellido : String
  email : String
  password : String
  empresa : String

/-- The form fields of `POST /create_project`.  `client_id` arrives as a
form string and is coerced to an integer by the column type; the model
takes it as the number directly. -/
structure CreateProjectForm where
  project_name : String
  status : String
  start_date : String
  client_id : Nat

/-- `login` POST branch (`src/app.py` lines 81-96).  The first component
is the session established by `login_user` (`none` when authentication
fails and no session is established). -/
def login (db : DB) (form : LoginForm) : Option Nat × HandlerResult :=
  match db.users.find? (fun u => u.email == form.email) with
  | some u =>
    if check_password_hash u.password form.password then
      (some u.id, ⟨db, [],
        .redirect (if u.role == "admin" then "admin_dashboard" else "client_dashboard")⟩)
    else
      (none, ⟨db, [⟨"Correo o contraseña incorrectos.", "error"⟩], .renderLogin⟩)
  | none =>
      (none, ⟨db, [⟨"Correo o contraseña incorrectos.", "error"⟩], .renderLogin⟩)

/-- `register` POST branch (`src/app.py` lines 99-116).  `salt` is the
fresh salt werkzeug draws inside `set_password`. -/
def register (db : DB) (salt : Nat) (form : RegisterForm) : HandlerResult :=
  match db.users.find? (fun u => u.email == form.email) with
  | some _ =>
      ⟨db, [⟨"Ese correo electrónico ya está registrado.", "error"⟩], .redirect "register"⟩
  | none =>
      let new_user : User :=
        { id := nextUserId db, email := form.email,
          password := generate_password_hash salt form.password,
          name := form.name, role := "client", empresa := none }
      ⟨⟨db.users ++ [new_user], db.projects⟩,
        [⟨"¡Cuenta creada exitosamente! Ahora puedes iniciar sesión.", "success"⟩],
        .redirect "login"⟩

/-- `create_client` (`src/app.py` lines 157-181): admin-only; the role
check failure is a bare redirect (no flash at line 161). -/
def create_client (db : DB) (salt : Nat) (sess : Option Nat)
    (form : CreateClientForm) : HandlerResult :=
  match getCurrentUser db sess with
  | none => loginRequiredResult db
  | some u =>
    if u.role != "admin" then
      ⟨db, [], .redirect "index"⟩
    else
      match db.users.find? (fun x => x.email == form.email) with
      | some _ =>
          ⟨db, [⟨"Ese correo electrónico ya está registrado.", "error"⟩],
            .redirect "admin_dashboard"⟩
      | none =>
          let new_client : User :=
            { id := nextUserId db, email := form.email,
              password := generate_password_hash salt form.password,
              name := form.nombre ++ " " ++ form.apellido,
              role := "client", empresa := some form.empresa }
          ⟨⟨db.users ++ [new_client], db.projects⟩,
            [⟨"¡Cliente creado exitosamente!", "success"⟩],
            .redirect "admin_dashboard"⟩

/-- Split a character list at every `-`, keeping empty pieces, as Python
splits the `%Y-%m-%d` pattern. -/
def splitOnDash (cs : List Char) : List (List Char) :=
  match cs with
  | [] => [[]]
  | c :: rest =>
    let r := splitOnDash rest
    if c == '-' then [] :: r
    else
      match r with
      | [] => [[c]]
      | h :: t => (c :: h) :: t

/-- Digits-only character list to number; `none` on empty or non-digit
input. -/
def parseNatDigits (cs : List Char) : Option Nat :=
  if cs.isEmpty then none
  else if cs.all Char.isDigit then
    some (cs.foldl (fun a c => a * 10 + (c.toNat - 48)) 0)
  else none

/-- Gregorian leap year, as Python `datetime` uses. -/
def isLeap (y : Nat) : Bool :=
  (y % 4 == 0 && y % 100 != 0) || y % 400 == 0

/-- Days in a month, as Python `datetime` validates. -/
def daysInMonth (y m : Nat) : Nat :=
  if m == 2 then (if isLeap y then 29 else 28)
  else if [4, 6, 9, 11].contains m then 30
  else 31

/-- Modelled from the spec: `datetime.strptime(s, %Y-%m-%d).date()` (the
Python standard library, not repository code).  `%Y` requires four
digits, `%m` and `%d` one or two, and the assembled date must be a valid
calendar date; any other input raises `ValueError`, modelled as `none`. -/
def strptime_Ymd (s : String) : Option Date :=
  match splitOnDash s.data with
  | [ys, ms, ds] =>
    match parseNatDigits ys, parseNatDigits ms, parseNatDigits ds with
    | some y, some m, some d =>
      if ys.length == 4 && decide (ms.length ≤ 2) && decide (ds.length ≤ 2)
          && decide (1 ≤ m) && decide (m ≤ 12) && decide (1 ≤ d)
          && decide (d ≤ daysInMonth y m) then
        some ⟨y, m, d⟩
      else none
    | _, _, _ => none
  | _ => none

instance {ε α : Type} [DecidableEq ε] [DecidableEq α] : DecidableEq (Except ε α) :=
  fun x y =>
    match x, y with
    | .error e, .error f =>
      if h : e = f then isTrue (by rw [h]) else isFalse (fun hc => by cases hc; exact h rfl)
    | .ok a, .ok b =>
      if h : a = b then isTrue (by rw [h]) else isFalse (fun hc => by cases hc; exact h rfl)
    | .error _, .ok _ => isFalse (fun hc => by cases hc)
    | .ok _, .error _ => isFalse (fun hc => by cases hc)

/-- `create_project` (`src/app.py` lines 184-211): admin-only.  The
`strptime` call at line 197 is not wrapped in try/except, so an
unparseable date raises `ValueError` out of the handler; that uncaught
propagation is the `Except.error` case (Flask then returns a raw 500
response, with no flash, no redirect and no insert). -/
def create_project (db : DB) (sess : Option Nat)
    (form : CreateProjectForm) : Except String HandlerResult :=
  match getCurrentUser db sess with
  | none => .ok (loginRequiredResult db)
  | some u =>
    if u.role != "admin" then
      .ok ⟨db, [], .redirect "index"⟩
    else
      match strptime_Ymd form.start_date with
      | none => .error "ValueError"
      | some d =>
        let new_project : Project :=
          { id := nextProjectId db, name := form.project_name,
            status := form.status, start_date := some d,
            client_id := form.client_id }
        .ok ⟨⟨db.users, db.projects ++ [new_project]⟩,
          [⟨"¡Proyecto creado y asignado exitosamente!", "success"⟩],
          .redirect "admin_dashboard"⟩

/-- The admin seeding in `__main__` (`src/app.py` lines 222-227): if no
user has the well-known admin email, insert the admin account with
`set_password` of the development password. -/
def seed_admin (salt : Nat) (db : DB) : DB :=
  match db.users.find? (fun u => u.email == "admin@consultoria.py") with
  | some _ => db
  | none =>
      ⟨db.users ++
        [{ id := nextUserId db, email := "admin@consultoria.py",
           password := generate_password_hash salt "admin123",
           name := "Administrador", role := "admin",
           empresa := some "Consultoría PY" }], db.projects⟩

/-! ### Concrete fixtures

A small database used to instantiate the quantified theorems below:
one client, one admin, one user with an unexpected third role value, and
three projects (two owned by the client, one by another user; one with a
NULL `start_date`). -/

/-- Fixture: a client user. -/
def exClient : User :=
  ⟨1, "c@x.com", generate_password_hash 5 "pw1", "Cliente", "client", none⟩

/-- Fixture: the seeded admin user. -/
def exAdmin : User :=
  ⟨2, "admin@consultoria.py", generate_password_hash 7 "admin123",
    "Administrador", "admin", some "Consultoría PY"⟩

/-- Fixture: a user whose role is a third, unexpected string. -/
def exGhost : User :=
  ⟨3, "g@x.com", generate_password_hash 9 "pw3", "Fantasma", "ghost", none⟩

/-- Fixture: a dated project owned by the client. -/
def pA : Project := ⟨1, "A", "Pendiente", some ⟨2024, 1, 1⟩, 1⟩

/-- Fixture: a project with NULL `start_date` owned by the client. -/
def pB : Project := ⟨2, "B", "En Progreso", none, 1⟩

/-- Fixture: a dated project owned by a different user. -/
def pC : Project := ⟨3, "C", "Completado", some ⟨2023, 5, 2⟩, 2⟩

/-- Fixture: the example database. -/
def exDB : DB := ⟨[exClient, exAdmin, exGhost], [pA, pB, pC]⟩

/-! ### Helper lemmas -/

/-- For a fixed salt the modelled digest determines the plaintext. -/
theorem saltedDigest_inj {salt : Nat} {p q : String}
    (h : saltedDigest salt p = saltedDigest salt q) : p = q := by
  unfold saltedDigest at h
  have hd := congrArg String.data h
  rw [String.data_append, String.data_append] at hd
  exact String.ext (List.append_inj_right hd rfl)

/-- The modelled digest is never the plaintext itself: it is strictly
longer. -/
theorem saltedDigest_ne (salt : Nat) (p : String) : saltedDigest salt p ≠ p := by
  intro h
  have hl := congrArg String.length h
  rw [saltedDigest, String.length_append, String.length_append] at hl
  have hone : "#".length = 1 := rfl
  omega

/-- Verification of the very password that was hashed succeeds. -/
theorem check_password_hash_same (salt : Nat) (p : String) :
    check_password_hash (generate_password_hash salt p) p = true := by
  simp [check_password_hash, generate_password_hash]

/-- Verification of any other password fails. -/
theorem check_password_hash_wrong {salt : Nat} {p q : String} (h : q ≠ p) :
    check_password_hash (generate_password_hash salt p) q = false := by
  simp only [check_password_hash, generate_password_hash]
  rw [beq_eq_false_iff_ne]
  exact fun hc => h (saltedDigest_inj hc)

/-- Searching an extended table starts over in the extension when the
original table has no match. -/
theorem find?_append_of_none {α : Type} {p : α → Bool} {l l' : List α}
    (h : l.find? p = none) : (l ++ l').find? p = l'.find? p := by
  rw [List.find?_append, h, Option.none_or]

/-! ### Claims -/

/-- C1: for every logged-in session whose user has role `client`, the
dashboard handler returns exactly the Project rows whose `client_id`
equals the user id of that session — no project owned by any other user is
included, for every database state. -/
theorem claim_c1_client_dashboard_isolation (db : DB) (sess : Option Nat)
    (u : User) (hu : getCurrentUser db sess = some u)
    (hrole : u.role = "client") :
    ∃ ps : List Project,
      client_dashboard db sess = ⟨db, [], .renderDashboard u.name ps⟩ ∧
      ∀ p : Project, p ∈ ps ↔ (p ∈ db.projects ∧ p.client_id = u.id) := by
  refine ⟨db.projects.filter (fun p => p.client_id == u.id), ?_, ?_⟩
  · unfold client_dashboard
    rw [hu]
    simp [hrole]
  · intro p
    simp [List.mem_filter]

/-- C1 witness: the client session sees exactly its own two projects and
not the project of the other user. -/
theorem claim_c1_client_dashboard_isolation_witness :
    ∃ ps : List Project,
      client_dashboard exDB (some 1) = ⟨exDB, [], .renderDashboard exClient.name ps⟩ ∧
      ∀ p : Project, p ∈ ps ↔ (p ∈ exDB.projects ∧ p.client_id = exClient.id) :=
  claim_c1_client_dashboard_isolation exDB (some 1) exClient (by decide) rfl

/-- C6: a request to `/dashboard` or `/admin` with no authenticated
session produces the login redirect with the login-required flash, the
database unchanged, and a response carrying no User or Project data. -/
theorem claim_c6_unauthenticated_redirect (db : DB) (sess : Option Nat)
    (h : getCurrentUser db sess = none) :
    client_dashboard db sess =
      ⟨db, [⟨"Por favor, inicia sesión para acceder a esta página.", "message"⟩],
        .redirect "login"⟩ ∧
    admin_dashboard db sess =
      ⟨db, [⟨"Por favor, inicia sesión para acceder a esta página.", "message"⟩],
        .redirect "login"⟩ := by
  constructor
  · unfold client_dashboard
    rw [h]
    rfl
  · unfold admin_dashboard
    rw [h]
    rfl

/-- C6 witness: an unauthenticated request against the populated example
database. -/
theorem claim_c6_unauthenticated_redirect_witness :
    client_dashboard exDB none =
      ⟨exDB, [⟨"Por favor, inicia sesión para acceder a esta página.", "message"⟩],
        .redirect "login"⟩ ∧
    admin_dashboard exDB none =
      ⟨exDB, [⟨"Por favor, inicia sesión para acceder a esta página.", "message"⟩],
        .redirect "login"⟩ :=
  claim_c6_unauthenticated_redirect exDB none rfl

/-- C10: a user whose role is neither `client` nor `admin` is denied by
both dashboards with a redirect and the unauthorized flash; neither
dashboard renders any data for such a user. -/
theorem claim_c10_third_role_locked_out (db : DB) (sess : Option Nat)
    (u : User) (hu : getCurrentUser db sess = some u)
    (hc : u.role ≠ "client") (ha : u.role ≠ "admin") :
    client_dashboard db sess =
      ⟨db, [⟨"Acceso no autorizado.", "error"⟩], .redirect "index"⟩ ∧
    admin_dashboard db sess =
      ⟨db, [⟨"Acceso no autorizado.", "error"⟩], .redirect "index"⟩ := by
  constructor
  · unfold client_dashboard
    rw [hu]
    simp [hc]
  · unfold admin_dashboard
    rw [hu]
    simp [ha]

/-- C10 witness: the fixture user with role `ghost` can view no
dashboard. -/
theorem claim_c10_third_role_locked_out_witness :
    client_dashboard exDB (some 3) =
      ⟨exDB, [⟨"Acceso no autorizado.", "error"⟩], .redirect "index"⟩ ∧
    admin_dashboard exDB (some 3) =
      ⟨exDB, [⟨"Acceso no autorizado.", "error"⟩], .redirect "index"⟩ :=
  claim_c10_third_role_locked_out exDB (some 3) exGhost (by decide)
    (by decide) (by decide)

/-- C4: whenever the user table already contains a row with the submitted
email, a second `register` flashes the duplicate-email error, redirects
back to the register page, and leaves the whole database unchanged, so no
second row with that email is created. -/
theorem claim_c4_duplicate_register (db : DB) (salt : Nat)
    (form : RegisterForm) (u : User) (hmem : u ∈ db.users)
    (hemail : u.email = form.email) :
    register db salt form =
      ⟨db, [⟨"Ese correo electrónico ya está registrado.", "error"⟩],
        .redirect "register"⟩ := by
  have hsome : (db.users.find? (fun x => x.email == form.email)).isSome := by
    rw [List.find?_isSome]
    exact ⟨u, hmem, by simp [hemail]⟩
  obtain ⟨v, hv⟩ := Option.isSome_iff_exists.mp hsome
  unfold register
  rw [hv]

/-- C4 witness: re-registering the email of the fixture client changes
nothing. -/
theorem claim_c4_duplicate_register_witness :
    register exDB 11 ⟨"c@x.com", "Otro", "pw9"⟩ =
      ⟨exDB, [⟨"Ese correo electrónico ya está registrado.", "error"⟩],
        .redirect "register"⟩ :=
  claim_c4_duplicate_register exDB 11 ⟨"c@x.com", "Otro", "pw9"⟩ exClient
    (by decide) rfl

/-- C9: a login attempt with an email matching no user and one with an
existing email but a wrong password produce identical observable output:
no session, the same flash, the same re-rendered login page. -/
theorem claim_c9_login_indistinguishable (db : DB) (e1 p1 e2 p2 : String)
    (u : User) (h1 : db.users.find? (fun x => x.email == e1) = none)
    (h2 : db.users.find? (fun x => x.email == e2) = some u)
    (h3 : check_password_hash u.password p2 = false) :
    login db ⟨e1, p1⟩ = login db ⟨e2, p2⟩ ∧
    login db ⟨e1, p1⟩ =
      (none, ⟨db, [⟨"Correo o contraseña incorrectos.", "error"⟩], .renderLogin⟩) := by
  have ha : login db ⟨e1, p1⟩ =
      (none, ⟨db, [⟨"Correo o contraseña incorrectos.", "error"⟩], .renderLogin⟩) := by
    unfold login
    rw [h1]
  have hb : login db ⟨e2, p2⟩ =
      (none, ⟨db, [⟨"Correo o contraseña incorrectos.", "error"⟩], .renderLogin⟩) := by
    unfold login
    rw [h2]
    simp [h3]
  exact ⟨ha.trans hb.symm, ha⟩

/-- C9 witness: unknown email versus wrong password against the fixture
database give byte-identical results. -/
theorem claim_c9_login_indistinguishable_witness :
    login exDB ⟨"nobody@x.com", "whatever"⟩ = login exDB ⟨"c@x.com", "wrong"⟩ ∧
    login exDB ⟨"nobody@x.com", "whatever"⟩ =
      (none, ⟨exDB, [⟨"Correo o contraseña incorrectos.", "error"⟩], .renderLogin⟩) :=
  claim_c9_login_indistinguishable exDB "nobody@x.com" "whatever" "c@x.com"
    "wrong" exClient (by decide) (by decide) (by decide)

/-- C3: registering a fresh email and then authenticating with the same
credentials succeeds and establishes a session for the new user; with the
same email but a different password it establishes no session and flashes
the invalid-credentials error. -/
theorem claim_c3_register_then_authenticate (db : DB) (salt : Nat)
    (email name pw pw' : String)
    (hfresh : db.users.find? (fun u => u.email == email) = none)
    (hne : pw' ≠ pw) :
    (login (register db salt ⟨email, name, pw⟩).db ⟨email, pw⟩).1 =
      some (nextUserId db) ∧
    (login (register db salt ⟨email, name, pw⟩).db ⟨email, pw⟩).2.response =
      .redirect "client_dashboard" ∧
    (login (register db salt ⟨email, name, pw⟩).db ⟨email, pw'⟩).1 = none ∧
    (login (register db salt ⟨email, name, pw⟩).db ⟨email, pw'⟩).2.flashes =
      [⟨"Correo o contraseña incorrectos.", "error"⟩] ∧
    (login (register db salt ⟨email, name, pw⟩).db ⟨email, pw'⟩).2.response =
      .renderLogin := by
  have hdb : (register db salt ⟨email, name, pw⟩).db =
      ⟨db.users ++
        [{ id := nextUserId db, email := email,
           password := generate_password_hash salt pw,
           name := name, role := "client", empresa := none }], db.projects⟩ := by
    unfold register
    rw [hfresh]
  rw [hdb]
  have hfind : (db.users ++
      [({ id := nextUserId db, email := email,
          password := generate_password_hash salt pw,
          name := name, role := "client", empresa := none } : User)]).find?
        (fun u => u.email == email) =
      some ({ id := nextUserId db, email := email,
              password := generate_password_hash salt pw,
              name := name, role := "client", empresa := none } : User) := by
    rw [find?_append_of_none hfresh]
    simp [List.find?]
  constructor
  · unfold login
    rw [hfind]
    simp [check_password_hash_same]
  constructor
  · unfold login
    rw [hfind]
    simp [check_password_hash_same]
  refine ⟨?_, ?_, ?_⟩ <;>
    · unfold login
      rw [hfind]
      simp [check_password_hash_wrong hne]

/-- C3 witness: on an empty database, register then login with the right
and with a wrong password. -/
theorem claim_c3_register_then_authenticate_witness :
    (login (register ⟨[], []⟩ 0 ⟨"a@x.com", "Ana", "pw1"⟩).db
      ⟨"a@x.com", "pw1"⟩).1 = some (nextUserId ⟨[], []⟩) ∧
    (login (register ⟨[], []⟩ 0 ⟨"a@x.com", "Ana", "pw1"⟩).db
      ⟨"a@x.com", "pw1"⟩).2.response = .redirect "client_dashboard" ∧
    (login (register ⟨[], []⟩ 0 ⟨"a@x.com", "Ana", "pw1"⟩).db
      ⟨"a@x.com", "pw2"⟩).1 = none ∧
    (login (register ⟨[], []⟩ 0 ⟨"a@x.com", "Ana", "pw1"⟩).db
      ⟨"a@x.com", "pw2"⟩).2.flashes =
      [⟨"Correo o contraseña incorrectos.", "error"⟩] ∧
    (login (register ⟨[], []⟩ 0 ⟨"a@x.com", "Ana", "pw1"⟩).db
      ⟨"a@x.com", "pw2"⟩).2.response = .renderLogin :=
  claim_c3_register_then_authenticate ⟨[], []⟩ 0 "a@x.com" "Ana" "pw1" "pw2"
    rfl (by decide)

/-- C5: every operation that persists a User — `register`,
`create_client`, and the admin seeding — stores as the password field the
salted hash of the submitted plaintext, whose digest is never the
plaintext itself; verification re-derives the digest from the stored salt
and compares, and accepts the original plaintext. -/
theorem claim_c5_passwords_stored_hashed (salt : Nat) :
    (∀ (db : DB) (form : RegisterForm),
      db.users.find? (fun u => u.email == form.email) = none →
      ∃ nu : User, (register db salt form).db.users = db.users ++ [nu] ∧
        nu.password = generate_password_hash salt form.password ∧
        nu.password.digest ≠ form.password ∧
        (∀ q : String, check_password_hash nu.password q =
          (saltedDigest nu.password.salt q == nu.password.digest)) ∧
        check_password_hash nu.password form.password = true)
    ∧ (∀ (db : DB) (sess : Option Nat) (u : User) (form : CreateClientForm),
      getCurrentUser db sess = some u → u.role = "admin" →
      db.users.find? (fun x => x.email == form.email) = none →
      ∃ nu : User, (create_client db salt sess form).db.users = db.users ++ [nu] ∧
        nu.password = generate_password_hash salt form.password ∧
        nu.password.digest ≠ form.password ∧
        check_password_hash nu.password form.password = true)
    ∧ (∀ db : DB,
      db.users.find? (fun u => u.email == "admin@consultoria.py") = none →
      ∃ nu : User, (seed_admin salt db).users = db.users ++ [nu] ∧
        nu.password = generate_password_hash salt "admin123" ∧
        nu.password.digest ≠ "admin123" ∧
        check_password_hash nu.password "admin123" = true) := by
  refine ⟨?_, ?_, ?_⟩
  · intro db form hfresh
    refine ⟨{ id := nextUserId db, email := form.email,
              password := generate_password_hash salt form.password,
              name := form.name, role := "client", empresa := none },
      ?_, rfl, saltedDigest_ne salt form.password, fun q => rfl,
      check_password_hash_same salt form.password⟩
    unfold register
    rw [hfresh]
  · intro db sess u form hu hrole hfresh
    refine ⟨{ id := nextUserId db, email := form.email,
              password := generate_password_hash salt form.password,
              name := form.nombre ++ " " ++ form.apellido,
              role := "client", empresa := some form.empresa },
      ?_, rfl, saltedDigest_ne salt form.password,
      check_password_hash_same salt form.password⟩
    unfold create_client
    rw [hu]
    simp only [hrole, bne_self_eq_false, Bool.false_eq_true, if_false]
    rw [hfresh]
  · intro db hfresh
    refine ⟨{ id := nextUserId db, email := "admin@consultoria.py",
              password := generate_password_hash salt "admin123",
              name := "Administrador", role := "admin",
              empresa := some "Consultoría PY" },
      ?_, rfl, saltedDigest_ne salt "admin123",
      check_password_hash_same salt "admin123"⟩
    unfold seed_admin
    rw [hfresh]

/-- C5 witness: the three persisting operations instantiated on concrete
databases and forms. -/
theorem claim_c5_passwords_stored_hashed_witness :
    (∃ nu : User,
      (register ⟨[], []⟩ 4 ⟨"a@x.com", "Ana", "pwA"⟩).db.users =
        ([] : List User) ++ [nu] ∧
      nu.password = generate_password_hash 4 "pwA" ∧
      nu.password.digest ≠ "pwA" ∧
      (∀ q : String, check_password_hash nu.password q =
        (saltedDigest nu.password.salt q == nu.password.digest)) ∧
      check_password_hash nu.password "pwA" = true)
    ∧ (∃ nu : User,
      (create_client exDB 4 (some 2) ⟨"Nora", "Diaz", "n@x.com", "pwN", "E"⟩).db.users =
        exDB.users ++ [nu] ∧
      nu.password = generate_password_hash 4 "pwN" ∧
      nu.password.digest ≠ "pwN" ∧
      check_password_hash nu.password "pwN" = true)
    ∧ (∃ nu : User,
      (seed_admin 4 ⟨[], []⟩).users = ([] : List User) ++ [nu] ∧
      nu.password = generate_password_hash 4 "admin123" ∧
      nu.password.digest ≠ "admin123" ∧
      check_password_hash nu.password "admin123" = true) :=
  ⟨(claim_c5_passwords_stored_hashed 4).1 ⟨[], []⟩ ⟨"a@x.com", "Ana", "pwA"⟩ rfl,
   (claim_c5_passwords_stored_hashed 4).2.1 exDB (some 2) exAdmin
     ⟨"Nora", "Diaz", "n@x.com", "pwN", "E"⟩ (by decide) rfl (by decide),
   (claim_c5_passwords_stored_hashed 4).2.2 ⟨[], []⟩ rfl⟩

/-- C7 counterexample: a client-role session hitting `create_client` and
`create_project` is denied by a bare redirect whose flash list is empty —
there is no user-visible message, contrary to the claim. -/
theorem claim_c7_bare_redirect_counterexample :
    getCurrentUser exDB (some 1) = some exClient ∧
    exClient.role = "client" ∧
    (create_client exDB 0 (some 1) ⟨"N", "A", "x@y.com", "pw", "E"⟩).flashes = [] ∧
    create_client exDB 0 (some 1) ⟨"N", "A", "x@y.com", "pw", "E"⟩ =
      ⟨exDB, [], .redirect "index"⟩ ∧
    create_project exDB (some 1) ⟨"P", "Pendiente", "2024-03-15", 1⟩ =
      .ok ⟨exDB, [], .redirect "index"⟩ := by
  refine ⟨rfl, rfl, rfl, rfl, rfl⟩

/-- C7 as amended: a role-mismatched session is always answered with a
redirect and never an exception; the two dashboards additionally flash
the unauthorized message, while `create_client` and `create_project`
redirect with no flash at all. -/
theorem claim_c7_role_mismatch_denied :
    (∀ (db : DB) (sess : Option Nat) (u : User),
      getCurrentUser db sess = some u → u.role ≠ "client" →
      client_dashboard db sess =
        ⟨db, [⟨"Acceso no autorizado.", "error"⟩], .redirect "index"⟩)
    ∧ (∀ (db : DB) (sess : Option Nat) (u : User),
      getCurrentUser db sess = some u → u.role ≠ "admin" →
      admin_dashboard db sess =
        ⟨db, [⟨"Acceso no autorizado.", "error"⟩], .redirect "index"⟩ ∧
      (∀ (salt : Nat) (form : CreateClientForm),
        create_client db salt sess form = ⟨db, [], .redirect "index"⟩) ∧
      (∀ form : CreateProjectForm,
        create_project db sess form = .ok ⟨db, [], .redirect "index"⟩)) := by
  constructor
  · intro db sess u hu hne
    unfold client_dashboard
    rw [hu]
    simp [hne]
  · intro db sess u hu hne
    refine ⟨?_, ?_, ?_⟩
    · unfold admin_dashboard
      rw [hu]
      simp [hne]
    · intro salt form
      unfold create_client
      rw [hu]
      simp [hne]
    · intro form
      unfold create_project
      rw [hu]
      simp [hne]

/-- C7 witness: the admin denied at the client dashboard, and the client
denied at the three admin-only handlers. -/
theorem claim_c7_role_mismatch_denied_witness :
    client_dashboard exDB (some 2) =
      ⟨exDB, [⟨"Acceso no autorizado.", "error"⟩], .redirect "index"⟩ ∧
    admin_dashboard exDB (some 1) =
      ⟨exDB, [⟨"Acceso no autorizado.", "error"⟩], .redirect "index"⟩ ∧
    create_client exDB 3 (some 1) ⟨"N", "A", "y@z.com", "pw", "E"⟩ =
      ⟨exDB, [], .redirect "index"⟩ ∧
    create_project exDB (some 1) ⟨"Q", "Pendiente", "2025-01-01", 1⟩ =
      .ok ⟨exDB, [], .redirect "index"⟩ :=
  ⟨claim_c7_role_mismatch_denied.1 exDB (some 2) exAdmin (by decide) (by decide),
   (claim_c7_role_mismatch_denied.2 exDB (some 1) exClient (by decide) (by decide)).1,
   (claim_c7_role_mismatch_denied.2 exDB (some 1) exClient (by decide) (by decide)).2.1
     3 ⟨"N", "A", "y@z.com", "pw", "E"⟩,
   (claim_c7_role_mismatch_denied.2 exDB (some 1) exClient (by decide) (by decide)).2.2
     ⟨"Q", "Pendiente", "2025-01-01", 1⟩⟩

/-- Written from the words of the claim, for comparison with the ordering
of the code: `a` may precede `b` when projects are sorted by `start_date`
descending with null start dates sorted last. -/
def specDescNullsLastBefore (a b : Project) : Bool :=
  match a.start_date, b.start_date with
  | none, none => true
  | none, some _ => false
  | some _, none => true
  | some x, some y => dateKey y ≤ dateKey x

/-- Written from the words of the claim: the list is sorted by `start_date`
descending with nulls last. -/
def specSortedDescNullsLast : List Project → Bool
  | [] => true
  | [_] => true
  | a :: b :: t => specDescNullsLastBefore a b && specSortedDescNullsLast (b :: t)

/-- C8 counterexample: on the fixture database the admin dashboard
renders the NULL-dated project FIRST (PostgreSQL `DESC` places nulls
first), so the rendered list is not sorted with nulls last as the claim
states. -/
theorem claim_c8_nulls_last_counterexample :
    admin_dashboard exDB (some 2) =
      ⟨exDB, [], .renderAdmin [exClient] [pB, pA, pC]⟩ ∧
    pB.start_date = none ∧
    pA.start_date = some ⟨2024, 1, 1⟩ ∧
    specSortedDescNullsLast [pB, pA, pC] = false := by
  refine ⟨?_, rfl, rfl, rfl⟩
  decide

/-- C8 as amended: for every admin session the dashboard renders exactly
the users whose role is `client`, and a permutation of all projects that
is sorted by `start_date` descending with NULL start dates first (the
PostgreSQL default for `DESC`). -/
theorem claim_c8_admin_dashboard_content (db : DB) (sess : Option Nat)
    (u : User) (hu : getCurrentUser db sess = some u)
    (hrole : u.role = "admin") :
    ∃ (cs : List User) (ps : List Project),
      admin_dashboard db sess = ⟨db, [], .renderAdmin cs ps⟩ ∧
      (∀ x : User, x ∈ cs ↔ (x ∈ db.users ∧ x.role = "client")) ∧
      ps.Perm db.projects ∧
      List.Sorted projOrder ps := by
  refine ⟨db.users.filter (fun x => x.role == "client"),
    orderByStartDateDesc db.projects, ?_, ?_, ?_, ?_⟩
  · unfold admin_dashboard
    rw [hu]
    simp [hrole]
  · intro x
    simp [List.mem_filter]
  · exact List.perm_insertionSort projOrder db.projects
  · exact List.sorted_insertionSort projOrder db.projects

/-- C8 witness: the admin session over the fixture database. -/
theorem claim_c8_admin_dashboard_content_witness :
    ∃ (cs : List User) (ps : List Project),
      admin_dashboard exDB (some 2) = ⟨exDB, [], .renderAdmin cs ps⟩ ∧
      (∀ x : User, x ∈ cs ↔ (x ∈ exDB.users ∧ x.role = "client")) ∧
      ps.Perm exDB.projects ∧
      List.Sorted projOrder ps :=
  claim_c8_admin_dashboard_content exDB (some 2) exAdmin (by decide) rfl

/-- C2: evaluating `create_project` under an admin session: the
unparseable date raises an uncaught `ValueError` — the error escapes the
handler with no flash, no redirect and no inserted row — while the
parseable date `2024-03-15` inserts a project whose stored date is the
calendar date 2024-03-15. -/
theorem claim_c2_create_project_date_handling :
    create_project exDB (some 2) ⟨"Web", "Pendiente", "not-a-date", 1⟩ =
      .error "ValueError" ∧
    create_project exDB (some 2) ⟨"Web", "Pendiente", "2024-03-15", 1⟩ =
      .ok ⟨⟨exDB.users, exDB.projects ++ [⟨4, "Web", "Pendiente", some ⟨2024, 3, 15⟩, 1⟩]⟩,
        [⟨"¡Proyecto creado y asignado exitosamente!", "success"⟩],
        .redirect "admin_dashboard"⟩ := by
  constructor
  · rfl
  · rfl

end ConsultApp
